import Mathlib

/-!
# Verification of the Block-Account CRUD service (src/main.go)

Shallow embedding of the Go service in Lean 4.  Time instants and durations
are modelled as integers counting nanoseconds (Go's `time.Time` monotonic
part / `time.Duration`).  Go's `float64` fields (`principal`,
`interest_rate`) are modelled by `Rat`: the program only stores and compares
these values (the rate constants 0.02, 0.035, 0.05, 0.10 are exact), it never
performs float arithmetic on them.  The PostgreSQL table `block_accounts` is
modelled by an in-memory list of rows together with the SERIAL id counter and
a clock used for the `created_at` / `updated_at` column defaults; a `failing`
flag models an unreachable database (every query returns an error).
-/

/-- Nanoseconds in one hour: Go `time.Hour` as an integer duration. -/
def nsPerHour : Int := 3600 * 1000000000

namespace BlockSvc

/-- Go struct `BlockAccount` (src/main.go lines 27-37): one row of the
`block_accounts` table. -/
structure BlockAccount where
  id : Int
  userID : Int
  principal : Rat
  startDate : Int
  endDate : Int
  interestRate : Rat
  status : String
  createdAt : Int
  updatedAt : Int
  deriving Repr, DecidableEq

/-- Go struct `CreateAccountRequest` (src/main.go lines 41-45). -/
structure CreateAccountRequest where
  userID : Int
  principal : Rat
  period : String
  deriving Repr, DecidableEq

/-- The persistent store backing the service: the `block_accounts` table
(rows in insertion order), the SERIAL `id` counter, the clock supplying the
`created_at` / `updated_at` defaults (strictly increasing across inserts),
and a flag modelling an unreachable database. -/
structure Store where
  accounts : List BlockAccount
  nextId : Int
  clock : Int
  failing : Bool
  deriving Repr, DecidableEq

/-- Errors surfaced by the service layer: `invalidPeriod` is the
`fmt.Errorf("invalid period: %s", period)` of `CreateBlockAccount`,
`noRows` is `sql.ErrNoRows`, `storeErr` any other database error. -/
inductive SvcError where
  | invalidPeriod
  | noRows
  | storeErr
  deriving Repr, DecidableEq

/-- Error message attached to a `SvcError` (what `err.Error()` yields). -/
def SvcError.message : SvcError → String
  | .invalidPeriod => "invalid period"
  | .noRows => "sql: no rows in result set"
  | .storeErr => "store failure"

/-- Go `isValidPeriod` (src/main.go lines 83-88): membership in the literal
map over "3m", "6m", "1y", "3y". -/
def isValidPeriod (period : String) : Bool :=
  period == "3m" || period == "6m" || period == "1y" || period == "3y"

/-- Go `validateCreateRequest` (src/main.go lines 91-102): returns the error
message of the first failing check, `none` when the request is valid. -/
def validateCreateRequest (req : CreateAccountRequest) : Option String :=
  if req.userID ≤ 0 then
    some "user_id must be positive"
  else if req.principal ≤ 0 then
    some "principal must be positive"
  else if !isValidPeriod req.period then
    some "invalid period"
  else
    none

/-- The `switch period` of Go `CreateBlockAccount` (src/main.go lines
130-145): duration in nanoseconds and interest rate for each period code,
`none` for the `default` branch. -/
def resolvePeriod (period : String) : Option (Int × Rat) :=
  if period == "3m" then some (nsPerHour * 24 * 30 * 3, 2 / 100)
  else if period == "6m" then some (nsPerHour * 24 * 30 * 6, 35 / 1000)
  else if period == "1y" then some (nsPerHour * 24 * 365, 5 / 100)
  else if period == "3y" then some (nsPerHour * 24 * 365 * 3, 1 / 10)
  else none

/-- Go `service.CreateBlockAccount` (src/main.go lines 126-173): resolve the
period, set `startDate := time.Now()` (the explicit `now` argument),
`endDate := startDate.Add(duration)`, INSERT the row (the store assigns
`id`, `created_at`, `updated_at`), then re-SELECT and return the persisted
row.  In the model the re-selected row is the row just inserted. -/
def CreateBlockAccount (st : Store) (now : Int) (userID : Int)
    (principal : Rat) (period : String) :
    Except SvcError (BlockAccount × Store) :=
  match resolvePeriod period with
  | none => .error .invalidPeriod
  | some (duration, interestRate) =>
    if st.failing then .error .storeErr
    else
      let startDate := now
      let endDate := startDate + duration
      let account : BlockAccount :=
        { id := st.nextId
          userID := userID
          principal := principal
          startDate := startDate
          endDate := endDate
          interestRate := interestRate
          status := "active"
          createdAt := st.clock
          updatedAt := st.clock }
      .ok (account,
        { st with
            accounts := st.accounts ++ [account]
            nextId := st.nextId + 1
            clock := st.clock + 1 })

/-- Go `service.GetBlockAccount` (src/main.go lines 176-191): SELECT by id;
`sql.ErrNoRows` is turned into `(nil, nil)`, modelled `.ok none`. -/
def GetBlockAccount (st : Store) (id : Int) :
    Except SvcError (Option BlockAccount) :=
  if st.failing then .error .storeErr
  else .ok (st.accounts.find? (fun a => a.id == id))

/-- The comparison realising `ORDER BY created_at DESC`: row `a` comes
before row `b` when its `created_at` is the later one. -/
def createdAtDesc (a b : BlockAccount) : Prop :=
  b.createdAt ≤ a.createdAt

instance : DecidableRel createdAtDesc := fun a b =>
  inferInstanceAs (Decidable (b.createdAt ≤ a.createdAt))

instance : IsTotal BlockAccount createdAtDesc :=
  ⟨fun a b => le_total b.createdAt a.createdAt⟩

instance : IsTrans BlockAccount createdAtDesc :=
  ⟨fun _ _ _ hab hbc => le_trans hbc hab⟩

/-- `ORDER BY created_at DESC`: sort rows by `created_at`, newest first. -/
def sortByCreatedAtDesc (l : List BlockAccount) : List BlockAccount :=
  l.insertionSort createdAtDesc

/-- Go `service.GetUserBlockAccounts` (src/main.go lines 194-222): SELECT
all rows with the given `user_id`, `ORDER BY created_at DESC`; an empty
result set yields the empty list (Go's nil slice). -/
def GetUserBlockAccounts (st : Store) (userID : Int) :
    Except SvcError (List BlockAccount) :=
  if st.failing then .error .storeErr
  else .ok (sortByCreatedAtDesc
    (st.accounts.filter (fun a => a.userID == userID)))

/-- Go `service.DeleteBlockAccount` (src/main.go lines 225-241): DELETE by
id; when `RowsAffected() == 0` return `sql.ErrNoRows`, otherwise the rows
with that id are gone. -/
def DeleteBlockAccount (st : Store) (id : Int) : Except SvcError Store :=
  if st.failing then .error .storeErr
  else
    let remaining := st.accounts.filter (fun a => !(a.id == id))
    if st.accounts.length - remaining.length == 0 then .error .noRows
    else .ok { st with accounts := remaining }

/-! ## HTTP layer -/

/-- Accumulate decimal digits; `none` as soon as a non-digit appears. -/
def parseDigits (cs : List Char) : Option Nat :=
  cs.foldl
    (fun acc c =>
      match acc with
      | none => none
      | some n => if c.isDigit then some (n * 10 + (c.toNat - 48)) else none)
    (some 0)

/-- Go `strconv.Atoi`: an optional sign followed by at least one decimal
digit, rejecting any other character and values outside the 64-bit `int`
range. -/
def atoi (s : String) : Option Int :=
  let signAndDigits : Int × List Char :=
    match s.toList with
    | '-' :: rest => (-1, rest)
    | '+' :: rest => (1, rest)
    | rest => (1, rest)
  if signAndDigits.2.isEmpty then none
  else
    match parseDigits signAndDigits.2 with
    | none => none
    | some n =>
      let v := signAndDigits.1 * n
      if -(2 ^ 63) ≤ v ∧ v < 2 ^ 63 then some v else none

/-- Body of an HTTP response: the `ErrorResponse` JSON written by
`writeError`, the `SuccessResponse` envelope written by `writeSuccess`
(carrying one account or a list of accounts), or the empty body of a 204. -/
inductive RespBody where
  | errorBody (code : Nat) (message : String)
  | successAccount (a : BlockAccount)
  | successAccounts (l : List BlockAccount)
  | empty
  deriving Repr, DecidableEq

/-- An HTTP response: status code plus body. -/
structure HttpResponse where
  status : Nat
  body : RespBody
  deriving Repr, DecidableEq

/-- Go `writeError` (src/main.go lines 105-113): sets the status code and
writes an `ErrorResponse` carrying the same code and the message. -/
def writeError (statusCode : Nat) (message : String) : HttpResponse :=
  { status := statusCode, body := .errorBody statusCode message }

/-- Go `writeSuccess` (src/main.go lines 116-123) for a single account:
never calls `WriteHeader`, so the status is the implicit 200. -/
def writeSuccessAccount (a : BlockAccount) : HttpResponse :=
  { status := 200, body := .successAccount a }

/-- Go `writeSuccess` for a list of accounts (the `data` slice). -/
def writeSuccessAccounts (l : List BlockAccount) : HttpResponse :=
  { status := 200, body := .successAccounts l }

/-- Go `createBlockAccountHandler` (src/main.go lines 264-292).  `body` is
the JSON-decoded request, `none` when decoding failed.  Returns the
response and the store after the request. -/
def createBlockAccountHandler (st : Store) (now : Int)
    (body : Option CreateAccountRequest) : HttpResponse × Store :=
  match body with
  | none => (writeError 400 "Invalid request body", st)
  | some req =>
    match validateCreateRequest req with
    | some msg => (writeError 400 msg, st)
    | none =>
      match CreateBlockAccount st now req.userID req.principal req.period with
      | .error e => (writeError 500 e.message, st)
      | .ok (account, st') => (writeSuccessAccount account, st')

/-- Go `getBlockAccountHandler` (src/main.go lines 306-334): parse the path
id with `strconv.Atoi` (400 on failure), look the account up (500 on store
error, 404 when `nil`), else 200 with the record. -/
def getBlockAccountHandler (st : Store) (idStr : String) : HttpResponse :=
  match atoi idStr with
  | none => writeError 400 "Invalid block account ID"
  | some id =>
    match GetBlockAccount st id with
    | .error e => writeError 500 e.message
    | .ok none => writeError 404 "Block account not found"
    | .ok (some account) => writeSuccessAccount account

/-- Go `getUserBlockAccountsHandler` (src/main.go lines 347-371). -/
def getUserBlockAccountsHandler (st : Store) (userIDStr : String) :
    HttpResponse :=
  match atoi userIDStr with
  | none => writeError 400 "Invalid user ID"
  | some userID =>
    match GetUserBlockAccounts st userID with
    | .error e => writeError 500 e.message
    | .ok accounts => writeSuccessAccounts accounts

/-- Go `deleteBlockAccountHandler` (src/main.go lines 385-413): parse the
path id (400 on failure), delete; `sql.ErrNoRows` maps to 404, other errors
to 500, success to 204 with empty body. -/
def deleteBlockAccountHandler (st : Store) (idStr : String) :
    HttpResponse × Store :=
  match atoi idStr with
  | none => (writeError 400 "Invalid block account ID", st)
  | some id =>
    match DeleteBlockAccount st id with
    | .error .noRows => (writeError 404 "Block account not found", st)
    | .error e => (writeError 500 e.message, st)
    | .ok st' => ({ status := 204, body := .empty }, st')

/-- One request against the four API routes (src/main.go lines 554-557),
with its non-store inputs: the decoded body and the `time.Now()` instant
for create, the raw path parameter for the others. -/
inductive Request where
  | create (now : Int) (body : Option CreateAccountRequest)
  | get (idStr : String)
  | getByUser (userIDStr : String)
  | del (idStr : String)
  deriving Repr, DecidableEq

/-- Dispatch one request to its handler; GET handlers leave the store
untouched. -/
def handle (st : Store) : Request → HttpResponse × Store
  | .create now body => createBlockAccountHandler st now body
  | .get idStr => (getBlockAccountHandler st idStr, st)
  | .getByUser userIDStr => (getUserBlockAccountsHandler st userIDStr, st)
  | .del idStr => deleteBlockAccountHandler st idStr

/-! ## Helper lemmas and sample data -/

/-- A valid period code is one of the four literals. -/
theorem isValidPeriod_cases {period : String} (h : isValidPeriod period = true) :
    period = "3m" ∨ period = "6m" ∨ period = "1y" ∨ period = "3y" := by
  simp [isValidPeriod] at h
  tauto

/-- The request is valid exactly when all three checks pass. -/
theorem validateCreateRequest_eq_none_iff (req : CreateAccountRequest) :
    validateCreateRequest req = none ↔
      0 < req.userID ∧ 0 < req.principal ∧ isValidPeriod req.period = true := by
  unfold validateCreateRequest
  split_ifs with h1 h2 h3 <;> simp_all

/-- An empty store, as right after `initDatabase` on a fresh database. -/
def emptyStore : Store :=
  { accounts := [], nextId := 1, clock := 0, failing := false }

/-- Modelled from the spec's Rate Table (section 4.1): the fixed duration,
in nanoseconds, for each period code — 3m→90 days, 6m→180 days,
1y→365 days, 3y→1095 days. -/
def specFixedDuration (period : String) : Int :=
  if period == "3m" then 90 * (24 * nsPerHour)
  else if period == "6m" then 180 * (24 * nsPerHour)
  else if period == "1y" then 365 * (24 * nsPerHour)
  else 1095 * (24 * nsPerHour)

/-- Modelled from the spec's Rate Table (section 4.1): the fixed annual
rate for each period code — 3m→2.0%, 6m→3.5%, 1y→5.0%, 3y→10.0%. -/
def specFixedRate (period : String) : Rat :=
  if period == "3m" then 2 / 100
  else if period == "6m" then 35 / 1000
  else if period == "1y" then 5 / 100
  else 10 / 100

/-! ## Claims -/

/-- C1: for every valid period code, `CreateBlockAccount` produces an
account whose `end_date` minus `start_date` equals the fixed duration for
that period (3m → 90 days, 6m → 180 days, 1y → 365 days, 3y → 1095 days)
and whose `interest_rate` equals the fixed rate for that period
(3m → 0.02, 6m → 0.035, 1y → 0.05, 3y → 0.10). -/
theorem C1_create_matches_rate_table (st : Store) (now userID : Int)
    (principal : Rat) (period : String)
    (hf : st.failing = false) (hp : isValidPeriod period = true) :
    ∃ a st', CreateBlockAccount st now userID principal period = .ok (a, st') ∧
      a.endDate - a.startDate = specFixedDuration period ∧
      a.interestRate = specFixedRate period := by
  rcases isValidPeriod_cases hp with h | h | h | h <;> subst h
  all_goals simp [CreateBlockAccount, resolvePeriod, hf, specFixedDuration,
    specFixedRate, nsPerHour]
  all_goals norm_num

/-- Witness for C1 at the period "1y" on the empty store. -/
theorem C1_witness :
    ∃ a st', CreateBlockAccount emptyStore 0 1 5000 "1y" = .ok (a, st') ∧
      a.endDate - a.startDate = specFixedDuration "1y" ∧
      a.interestRate = specFixedRate "1y" :=
  C1_create_matches_rate_table emptyStore 0 1 5000 "1y" rfl rfl

/-- C2: for every create request with `principal ≤ 0`, or `user_id ≤ 0`,
or a period outside {3m, 6m, 1y, 3y}, the create handler fails validation
with HTTP 400 before any store write: the store after the request is the
store before it, so no account is inserted. -/
theorem C2_invalid_create_rejected_before_write (st : Store) (now : Int)
    (req : CreateAccountRequest)
    (h : req.principal ≤ 0 ∨ req.userID ≤ 0 ∨ isValidPeriod req.period = false) :
    (createBlockAccountHandler st now (some req)).1.status = 400 ∧
    (createBlockAccountHandler st now (some req)).2 = st := by
  have hv : validateCreateRequest req ≠ none := by
    rw [Ne, validateCreateRequest_eq_none_iff]
    rcases h with h | h | h
    · exact fun hc => absurd hc.2.1 (not_lt.mpr h)
    · exact fun hc => absurd hc.1 (not_lt.mpr h)
    · exact fun hc => by rw [h] at hc; exact Bool.false_ne_true hc.2.2
  match hval : validateCreateRequest req with
  | some msg => simp [createBlockAccountHandler, hval, writeError]
  | none => exact absurd hval hv

/-- Witness for C2: invalid period "10y" on the empty store. -/
theorem C2_witness :
    (createBlockAccountHandler emptyStore 0
      (some { userID := 1, principal := 5000, period := "10y" })).1.status = 400 ∧
    (createBlockAccountHandler emptyStore 0
      (some { userID := 1, principal := 5000, period := "10y" })).2 = emptyStore :=
  C2_invalid_create_rejected_before_write emptyStore 0
    { userID := 1, principal := 5000, period := "10y" }
    (Or.inr (Or.inr rfl))

/-- A valid period code always resolves in the rate table. -/
theorem resolvePeriod_isSome {period : String} (h : isValidPeriod period = true) :
    ∃ d r, resolvePeriod period = some (d, r) := by
  rcases isValidPeriod_cases h with h | h | h | h <;> subst h <;> exact ⟨_, _, rfl⟩

/-- C3: for every validated create request, `CreateBlockAccount` returns
the persisted record carrying the store-assigned id and store-assigned
timestamps (`created_at`, `updated_at`), and a subsequent get with that
id returns a record whose fields match the create input (`user_id`,
`principal`) plus the derived fields (`start_date`, `end_date`,
`interest_rate`, `status`). -/
theorem C3_create_then_get (st : Store) (now userID : Int) (principal : Rat)
    (period : String) (hf : st.failing = false)
    (hids : ∀ b ∈ st.accounts, b.id ≠ st.nextId)
    (hv : isValidPeriod period = true) :
    ∃ a st' d r, resolvePeriod period = some (d, r) ∧
      CreateBlockAccount st now userID principal period = .ok (a, st') ∧
      a.id = st.nextId ∧ a.createdAt = st.clock ∧ a.updatedAt = st.clock ∧
      a.userID = userID ∧ a.principal = principal ∧ a.startDate = now ∧
      a.endDate = now + d ∧ a.interestRate = r ∧ a.status = "active" ∧
      GetBlockAccount st' a.id = .ok (some a) := by
  obtain ⟨d, r, hdr⟩ := resolvePeriod_isSome hv
  have hnone : st.accounts.find? (fun b => b.id == st.nextId) = none :=
    List.find?_eq_none.mpr (fun b hb => by simp [hids b hb])
  refine ⟨⟨st.nextId, userID, principal, now, now + d, r, "active",
      st.clock, st.clock⟩,
    ⟨st.accounts ++ [⟨st.nextId, userID, principal, now, now + d, r, "active",
      st.clock, st.clock⟩], st.nextId + 1, st.clock + 1, st.failing⟩,
    d, r, hdr, ?_, rfl, rfl, rfl, rfl, rfl, rfl, rfl, rfl, rfl, ?_⟩
  · unfold CreateBlockAccount
    rw [hdr]
    simp [hf]
  · unfold GetBlockAccount
    simp only [hf, Bool.false_eq_true, if_false]
    rw [List.find?_append, hnone]
    simp

/-- Witness for C3: create with user 7, principal 5000, period "3m" on the
empty store, then get it back. -/
theorem C3_witness :
    ∃ a st' d r, resolvePeriod "3m" = some (d, r) ∧
      CreateBlockAccount emptyStore 100 7 5000 "3m" = .ok (a, st') ∧
      a.id = emptyStore.nextId ∧ a.createdAt = emptyStore.clock ∧
      a.updatedAt = emptyStore.clock ∧
      a.userID = 7 ∧ a.principal = 5000 ∧ a.startDate = 100 ∧
      a.endDate = 100 + d ∧ a.interestRate = r ∧ a.status = "active" ∧
      GetBlockAccount st' a.id = .ok (some a) :=
  C3_create_then_get emptyStore 100 7 5000 "3m" rfl
    (fun b hb => by simp [emptyStore] at hb) rfl

/-- A sample persisted account: id 1, user 7, principal 5000, period "1y"
taken out at instant 0. -/
def sampleAccount : BlockAccount :=
  ⟨1, 7, 5000, 0, 31536000000000000, 1 / 20, "active", 0, 0⟩

/-- A store holding just `sampleAccount`. -/
def oneAccountStore : Store :=
  { accounts := [sampleAccount], nextId := 2, clock := 1, failing := false }

/-- A store holding two accounts of user 7, the second created later. -/
def twoAccountStore : Store :=
  { accounts := [⟨1, 7, 100, 0, 7776000000000000, 1 / 50, "active", 0, 0⟩,
      ⟨2, 7, 200, 5, 31536000000000005, 1 / 20, "active", 1, 1⟩],
    nextId := 3, clock := 2, failing := false }

/-- C4: for every id not present in the store, `GetBlockAccount` returns
the not-found signal (`.ok none`, Go's `(nil, nil)`) and not an error, and
the handler maps this to a 404 response; for a present id the handler
returns the record with status 200. -/
theorem C4_get_absent_404_present_200 (st : Store) (idStr : String) (id : Int)
    (hf : st.failing = false) (hp : atoi idStr = some id) :
    ((∀ a ∈ st.accounts, a.id ≠ id) →
      GetBlockAccount st id = .ok none ∧
      getBlockAccountHandler st idStr = writeError 404 "Block account not found") ∧
    (∀ a, GetBlockAccount st id = .ok (some a) →
      getBlockAccountHandler st idStr = writeSuccessAccount a) := by
  constructor
  · intro habs
    have hnone : st.accounts.find? (fun a => a.id == id) = none :=
      List.find?_eq_none.mpr (fun a ha => by simp [habs a ha])
    have hget : GetBlockAccount st id = .ok none := by
      unfold GetBlockAccount
      simp [hf, hnone]
    exact ⟨hget, by simp [getBlockAccountHandler, hp, hget]⟩
  · intro a hget
    simp [getBlockAccountHandler, hp, hget]

/-- Witness for C4: id 5 is absent from `oneAccountStore` (404), id 1 is
present (200 with the record). -/
theorem C4_witness :
    (GetBlockAccount oneAccountStore 5 = .ok none ∧
      getBlockAccountHandler oneAccountStore "5" =
        writeError 404 "Block account not found") ∧
    getBlockAccountHandler oneAccountStore "1" = writeSuccessAccount sampleAccount := by
  refine ⟨(C4_get_absent_404_present_200 oneAccountStore "5" 5 rfl (by decide)).1 ?_,
    (C4_get_absent_404_present_200 oneAccountStore "1" 1 rfl (by decide)).2
      sampleAccount ?_⟩
  · decide
  · rfl

/-- C5: for every user id, `GetUserBlockAccounts` returns exactly the
records whose owner is that user, ordered by creation time descending, and
the handler returns the (possibly empty) collection with HTTP 200; when
the user has no accounts the collection is empty. -/
theorem C5_get_by_user (st : Store) (userID : Int) (uStr : String)
    (hf : st.failing = false) (hp : atoi uStr = some userID) :
    ∃ l, GetUserBlockAccounts st userID = .ok l ∧
      List.Perm l (st.accounts.filter (fun a => a.userID == userID)) ∧
      l.Pairwise createdAtDesc ∧
      (∀ a, a ∈ l ↔ a ∈ st.accounts ∧ a.userID = userID) ∧
      ((∀ a ∈ st.accounts, a.userID ≠ userID) → l = []) ∧
      getUserBlockAccountsHandler st uStr = writeSuccessAccounts l := by
  refine ⟨sortByCreatedAtDesc (st.accounts.filter (fun a => a.userID == userID)),
    ?_, ?_, ?_, ?_, ?_, ?_⟩
  · unfold GetUserBlockAccounts
    simp [hf]
  · exact List.perm_insertionSort _ _
  · exact List.sorted_insertionSort _ _
  · intro a
    rw [sortByCreatedAtDesc,
      (List.perm_insertionSort createdAtDesc _).mem_iff, List.mem_filter]
    simp
  · intro habs
    have hfil : st.accounts.filter (fun a => a.userID == userID) = [] := by
      rw [List.filter_eq_nil_iff]
      intro a ha
      simp [habs a ha]
    rw [sortByCreatedAtDesc, hfil]
    rfl
  · unfold getUserBlockAccountsHandler GetUserBlockAccounts
    simp [hp, hf]

/-- Witness for C5: both accounts of user 7 in `twoAccountStore` come
back, newest first, with HTTP 200. -/
theorem C5_witness :
    ∃ l, GetUserBlockAccounts twoAccountStore 7 = .ok l ∧
      List.Perm l (twoAccountStore.accounts.filter (fun a => a.userID == 7)) ∧
      l.Pairwise createdAtDesc ∧
      (∀ a, a ∈ l ↔ a ∈ twoAccountStore.accounts ∧ a.userID = 7) ∧
      ((∀ a ∈ twoAccountStore.accounts, a.userID ≠ 7) → l = []) ∧
      getUserBlockAccountsHandler twoAccountStore "7" = writeSuccessAccounts l :=
  C5_get_by_user twoAccountStore 7 "7" rfl (by decide)

/-- A successful delete removed exactly the rows carrying the given id and
changed nothing else in the store. -/
theorem DeleteBlockAccount_ok {st st' : Store} {id : Int}
    (h : DeleteBlockAccount st id = .ok st') :
    st' = { st with accounts := st.accounts.filter (fun a => !(a.id == id)) } := by
  unfold DeleteBlockAccount at h
  by_cases hf : st.failing
  · simp [hf] at h
  · simp only [hf, Bool.false_eq_true, if_false] at h
    split at h
    · cases h
    · simp only [Bool.not_eq_true] at hf
      rw [hf]
      exact (Except.ok.inj h).symm

/-- C6: for every id not present in the store, `DeleteBlockAccount` fails
with `sql.ErrNoRows` rather than silently succeeding, the handler maps
that failure to 404, and the store after the failed delete is the store
before it. -/
theorem C6_delete_absent_fails (st : Store) (idStr : String) (id : Int)
    (hf : st.failing = false) (hp : atoi idStr = some id)
    (habs : ∀ a ∈ st.accounts, a.id ≠ id) :
    DeleteBlockAccount st id = .error .noRows ∧
    deleteBlockAccountHandler st idStr =
      (writeError 404 "Block account not found", st) := by
  have hfil : st.accounts.filter (fun a => !(a.id == id)) = st.accounts :=
    List.filter_eq_self.mpr (fun a ha => by simp [habs a ha])
  have hdel : DeleteBlockAccount st id = .error .noRows := by
    unfold DeleteBlockAccount
    simp [hf, hfil]
  exact ⟨hdel, by simp [deleteBlockAccountHandler, hp, hdel]⟩

/-- Witness for C6: deleting absent id 5 from `oneAccountStore` fails with
`noRows`, yields 404 and leaves the store as it was. -/
theorem C6_witness :
    DeleteBlockAccount oneAccountStore 5 = .error .noRows ∧
    deleteBlockAccountHandler oneAccountStore "5" =
      (writeError 404 "Block account not found", oneAccountStore) :=
  C6_delete_absent_fails oneAccountStore "5" 5 rfl (by decide) (by decide)

/-- C7: a successful delete of an id followed by a get of the same id
yields the not-found signal: the deleted record is no longer
retrievable. -/
theorem C7_delete_then_get_not_found (st st' : Store) (id : Int)
    (hf : st.failing = false)
    (hok : DeleteBlockAccount st id = .ok st') :
    GetBlockAccount st' id = .ok none := by
  have hs := DeleteBlockAccount_ok hok
  subst hs
  unfold GetBlockAccount
  simp only [hf, Bool.false_eq_true, if_false]
  refine congrArg Except.ok (List.find?_eq_none.mpr ?_)
  intro a ha
  have hmem := (List.mem_filter.mp ha).2
  simp only [Bool.not_eq_true'] at hmem
  simp [hmem]

/-- Witness for C7: after deleting id 1 from `oneAccountStore`, getting
id 1 yields not-found. -/
theorem C7_witness :
    GetBlockAccount ⟨[], 2, 1, false⟩ 1 = .ok none :=
  C7_delete_then_get_not_found oneAccountStore ⟨[], 2, 1, false⟩ 1 rfl rfl

/-- C8: the four endpoints map outcomes to statuses as follows — request
validation failure (bad body, invalid field, malformed path id) → 400,
not-found → 404, store/service error → 500, successful delete → 204 with
an empty body, successful create/get → 200 with the JSON success envelope
containing the record. -/
theorem C8_status_mapping (st : Store) (now : Int) (req : CreateAccountRequest)
    (s : String) :
    (createBlockAccountHandler st now none).1.status = 400 ∧
    (∀ msg, validateCreateRequest req = some msg →
      createBlockAccountHandler st now (some req) = (writeError 400 msg, st)) ∧
    (∀ e, validateCreateRequest req = none →
      CreateBlockAccount st now req.userID req.principal req.period = .error e →
      (createBlockAccountHandler st now (some req)).1 = writeError 500 e.message) ∧
    (∀ a st', validateCreateRequest req = none →
      CreateBlockAccount st now req.userID req.principal req.period = .ok (a, st') →
      (createBlockAccountHandler st now (some req)).1 = writeSuccessAccount a) ∧
    (atoi s = none →
      getBlockAccountHandler st s = writeError 400 "Invalid block account ID" ∧
      getUserBlockAccountsHandler st s = writeError 400 "Invalid user ID" ∧
      (deleteBlockAccountHandler st s).1 = writeError 400 "Invalid block account ID") ∧
    (∀ id, atoi s = some id → st.failing = true →
      (getBlockAccountHandler st s).status = 500 ∧
      (getUserBlockAccountsHandler st s).status = 500 ∧
      ((deleteBlockAccountHandler st s).1).status = 500) ∧
    (∀ id, atoi s = some id → GetBlockAccount st id = .ok none →
      getBlockAccountHandler st s = writeError 404 "Block account not found") ∧
    (∀ id, atoi s = some id → DeleteBlockAccount st id = .error .noRows →
      (deleteBlockAccountHandler st s).1 = writeError 404 "Block account not found") ∧
    (∀ id a, atoi s = some id → GetBlockAccount st id = .ok (some a) →
      getBlockAccountHandler st s = writeSuccessAccount a) ∧
    (∀ id st', atoi s = some id → DeleteBlockAccount st id = .ok st' →
      (deleteBlockAccountHandler st s).1 = { status := 204, body := .empty } ∧
      (deleteBlockAccountHandler st s).2 = st') := by
  refine ⟨rfl, ?_, ?_, ?_, ?_, ?_, ?_, ?_, ?_, ?_⟩
  · intro msg hval
    simp [createBlockAccountHandler, hval]
  · intro e hval herr
    simp [createBlockAccountHandler, hval, herr]
  · intro a st' hval hok
    simp [createBlockAccountHandler, hval, hok, writeSuccessAccount]
  · intro hnone
    refine ⟨?_, ?_, ?_⟩ <;> simp [getBlockAccountHandler,
      getUserBlockAccountsHandler, deleteBlockAccountHandler, hnone]
  · intro id hsome hfail
    refine ⟨?_, ?_, ?_⟩ <;>
      simp [getBlockAccountHandler, getUserBlockAccountsHandler,
        deleteBlockAccountHandler, hsome, GetBlockAccount,
        GetUserBlockAccounts, DeleteBlockAccount, hfail, writeError,
        SvcError.message]
  · intro id hsome hget
    simp [getBlockAccountHandler, hsome, hget]
  · intro id hsome hdel
    simp [deleteBlockAccountHandler, hsome, hdel]
  · intro id a hsome hget
    simp [getBlockAccountHandler, hsome, hget, writeSuccessAccount]
  · intro id st' hsome hdel
    simp [deleteBlockAccountHandler, hsome, hdel]

/-- Witness for C8: a 400 (undecodable body), a 400 (malformed id "x"),
a 200 with the record, and a 204 with empty body, all on concrete
stores. -/
theorem C8_witness :
    (createBlockAccountHandler oneAccountStore 0 none).1.status = 400 ∧
    getBlockAccountHandler oneAccountStore "x" =
      writeError 400 "Invalid block account ID" ∧
    getBlockAccountHandler oneAccountStore "1" = writeSuccessAccount sampleAccount ∧
    (deleteBlockAccountHandler oneAccountStore "1").1 =
      { status := 204, body := .empty } := by
  have h := C8_status_mapping oneAccountStore 0 ⟨1, 1, "1y"⟩ "x"
  have h2 := C8_status_mapping oneAccountStore 0 ⟨1, 1, "1y"⟩ "1"
  exact ⟨h.1, (h.2.2.2.2.1 (by decide)).1,
    h2.2.2.2.2.2.2.2.2.1 1 sampleAccount (by decide) rfl,
    (h2.2.2.2.2.2.2.2.2.2 1 ⟨[], 2, 1, false⟩ (by decide) rfl).1⟩

/-- A successful create returned an "active" account and appended exactly
that account to the store. -/
theorem CreateBlockAccount_ok {st st' : Store} {now userID : Int}
    {principal : Rat} {period : String} {a : BlockAccount}
    (h : CreateBlockAccount st now userID principal period = .ok (a, st')) :
    a.status = "active" ∧ st'.accounts = st.accounts ++ [a] := by
  unfold CreateBlockAccount at h
  cases hr : resolvePeriod period with
  | none => rw [hr] at h; cases h
  | some pr =>
    rw [hr] at h
    obtain ⟨d, rt⟩ := pr
    by_cases hf : st.failing
    · simp [hf] at h
    · simp only [Bool.not_eq_true] at hf
      simp only [hf, Bool.false_eq_true, if_false] at h
      have hpair := Except.ok.inj h
      obtain ⟨h1, h2⟩ := Prod.mk.inj hpair
      subst h1
      subst h2
      exact ⟨rfl, rfl⟩

/-- C9: every account this system stores has status "active", and no
request modifies a stored account: each request either leaves the stored
rows a sublist of what they were (reads change nothing, delete only
removes), or appends exactly one new "active" account (create). -/
theorem C9_read_only_lifecycle (st : Store) (r : Request)
    (hA : ∀ b ∈ st.accounts, b.status = "active") :
    (∀ b ∈ (handle st r).2.accounts, b.status = "active") ∧
    ((handle st r).2.accounts.Sublist st.accounts ∨
      ∃ a, a.status = "active" ∧
        (handle st r).2.accounts = st.accounts ++ [a]) := by
  cases r with
  | get s => exact ⟨hA, Or.inl (List.Sublist.refl _)⟩
  | getByUser s => exact ⟨hA, Or.inl (List.Sublist.refl _)⟩
  | del s =>
    simp only [handle]
    cases hp : atoi s with
    | none =>
      simp only [deleteBlockAccountHandler, hp]
      exact ⟨hA, Or.inl (List.Sublist.refl _)⟩
    | some id =>
      cases hd : DeleteBlockAccount st id with
      | error e =>
        cases e <;> simp only [deleteBlockAccountHandler, hp, hd] <;>
          exact ⟨hA, Or.inl (List.Sublist.refl _)⟩
      | ok st' =>
        have hsh := DeleteBlockAccount_ok hd
        simp only [deleteBlockAccountHandler, hp, hd, hsh]
        constructor
        · intro b hb
          exact hA b (List.mem_filter.mp hb).1
        · exact Or.inl (List.filter_sublist _)
  | create now body =>
    simp only [handle]
    cases body with
    | none => exact ⟨hA, Or.inl (List.Sublist.refl _)⟩
    | some req =>
      cases hv : validateCreateRequest req with
      | some msg =>
        simp only [createBlockAccountHandler, hv]
        exact ⟨hA, Or.inl (List.Sublist.refl _)⟩
      | none =>
        cases hc : CreateBlockAccount st now req.userID req.principal req.period with
        | error e =>
          simp only [createBlockAccountHandler, hv, hc]
          exact ⟨hA, Or.inl (List.Sublist.refl _)⟩
        | ok p =>
          obtain ⟨a, st'⟩ := p
          obtain ⟨hstat, hacc⟩ := CreateBlockAccount_ok hc
          simp only [createBlockAccountHandler, hv, hc, hacc]
          constructor
          · intro b hb
            rcases List.mem_append.mp hb with hb | hb
            · exact hA b hb
            · rw [List.mem_singleton.mp hb]
              exact hstat
          · exact Or.inr ⟨a, hstat, rfl⟩

/-- Witness for C9 at a delete request on `oneAccountStore`. -/
theorem C9_witness :
    (∀ b ∈ (handle oneAccountStore (.del "1")).2.accounts, b.status = "active") ∧
    ((handle oneAccountStore (.del "1")).2.accounts.Sublist oneAccountStore.accounts ∨
      ∃ a, a.status = "active" ∧
        (handle oneAccountStore (.del "1")).2.accounts =
          oneAccountStore.accounts ++ [a]) :=
  C9_read_only_lifecycle oneAccountStore (.del "1") (by decide)

/-- C10: a path id string that parses as an integer but is zero or
negative is not rejected as malformed with 400 by the get and delete
handlers; both proceed to the store lookup and answer 404 when no record
has that id. -/
theorem C10_nonpositive_ids_reach_lookup (st : Store) (s : String) (id : Int)
    (hf : st.failing = false) (hp : atoi s = some id) (_hle : id ≤ 0)
    (habs : ∀ a ∈ st.accounts, a.id ≠ id) :
    (getBlockAccountHandler st s).status ≠ 400 ∧
    ((deleteBlockAccountHandler st s).1).status ≠ 400 ∧
    (getBlockAccountHandler st s).status = 404 ∧
    ((deleteBlockAccountHandler st s).1).status = 404 := by
  have hnone : st.accounts.find? (fun a => a.id == id) = none :=
    List.find?_eq_none.mpr (fun a ha => by simp [habs a ha])
  have hget : getBlockAccountHandler st s =
      writeError 404 "Block account not found" := by
    simp [getBlockAccountHandler, hp, GetBlockAccount, hf, hnone]
  have hfil : st.accounts.filter (fun a => !(a.id == id)) = st.accounts :=
    List.filter_eq_self.mpr (fun a ha => by simp [habs a ha])
  have hdel : DeleteBlockAccount st id = .error .noRows := by
    unfold DeleteBlockAccount
    simp [hf, hfil]
  have hdelh : (deleteBlockAccountHandler st s).1 =
      writeError 404 "Block account not found" := by
    simp [deleteBlockAccountHandler, hp, hdel]
  rw [hget, hdelh]
  exact ⟨by norm_num [writeError], by norm_num [writeError], rfl, rfl⟩

/-- Witness for C10: the path id "-1" parses to -1 ≤ 0, is not answered
with 400, and yields 404 on `oneAccountStore`. -/
theorem C10_witness :
    (getBlockAccountHandler oneAccountStore "-1").status ≠ 400 ∧
    ((deleteBlockAccountHandler oneAccountStore "-1").1).status ≠ 400 ∧
    (getBlockAccountHandler oneAccountStore "-1").status = 404 ∧
    ((deleteBlockAccountHandler oneAccountStore "-1").1).status = 404 :=
  C10_nonpositive_ids_reach_lookup oneAccountStore "-1" (-1) rfl (by decide)
    (by decide) (by decide)

end BlockSvc
